import Mathlib

set_option maxRecDepth 100000
set_option linter.unusedVariables false

/-!
Verification of the text-summarizer pipeline (src/app.py) against its
natural-language specification.  The Python functions are shallowly
embedded over `List Char` (one Lean `Char` per Python character; the
ASCII whitespace set stands in for the regex class `\s`).  Machine
floats in the compression metric are modelled as exact rationals.
-/

namespace TextSummarizer

/-- The space character, used by the whitespace collapser and the joiner. -/
def spaceChar : Char := Char.ofNat 32

/-- ASCII members of the regex class `\s` used by `re.sub`/`re.split` and
Python `str.strip`/`str.split`. -/
def isPySpace (c : Char) : Bool :=
  c = spaceChar || c = '\t' || c = '\n' || c = '\r' || c = Char.ofNat 11 || c = Char.ofNat 12

/-- Sentence-final punctuation, the regex class `[.!?]`. -/
def isTerminal (c : Char) : Bool := c = '.' || c = '!' || c = '?'

/-- The regex class `[A-Z]`. -/
def isUpperAZ (c : Char) : Bool := 'A' ≤ c && c ≤ 'Z'

/-- Python `str.strip()`: drop whitespace from both ends. -/
def pyStrip (s : List Char) : List Char :=
  ((s.dropWhile isPySpace).reverse.dropWhile isPySpace).reverse

/-- Worker for `collapseWs`; the flag records whether the previous
character was whitespace (so a run contributes a single space). -/
def collapseWsAux : Bool → List Char → List Char
  | _, [] => []
  | prevSpace, c :: rest =>
    if isPySpace c then
      if prevSpace then collapseWsAux true rest
      else spaceChar :: collapseWsAux true rest
    else c :: collapseWsAux false rest

/-- `re.sub(r'\s+', ' ', text)`: every maximal whitespace run becomes one
single space. -/
def collapseWs (s : List Char) : List Char := collapseWsAux false s

/-- `re.split(r'(?<=[.!?])\s+(?=[A-Z])', text)` specialised to its use in
`clean_and_split_sentences`, where the text has already been
whitespace-collapsed so `\s+` matches exactly one space: a boundary is a
terminal punctuation character, one whitespace character, and an upper
case letter; the whitespace is consumed, the punctuation stays with the
left fragment and the capital starts the right one. -/
def splitCore : List Char → List Char → List (List Char)
  | [], acc => [acc.reverse]
  | c :: sp :: d :: rest2, acc =>
    if isTerminal c && isPySpace sp && isUpperAZ d then
      (acc.reverse ++ [c]) :: splitCore (d :: rest2) []
    else
      splitCore (sp :: d :: rest2) (c :: acc)
  | c :: rest, acc => splitCore rest (c :: acc)

/-- Python `sentence.endswith('..')`. -/
def endsDD (s : List Char) : Bool := ['.', '.'].isSuffixOf s

/-- Python `sentence.endswith(('.', '!', '?'))`. -/
def endsTerm (s : List Char) : Bool :=
  match s.getLast? with
  | some c => isTerminal c
  | none => false

/-- Body of the retention loop of `clean_and_split_sentences`: strip the
fragment, keep it only when it has at least 10 characters and does not
end in a double period, and append a period when terminal punctuation is
missing. -/
def processFragment (f : List Char) : Option (List Char) :=
  if 10 ≤ (pyStrip f).length ∧ endsDD (pyStrip f) = false then
    some (if endsTerm (pyStrip f) then pyStrip f else pyStrip f ++ ['.'])
  else none

/-- `clean_and_split_sentences` (src/app.py lines 191-204): collapse
whitespace, split on the capital-letter lookahead boundary, filter and
re-punctuate the fragments. -/
def clean_and_split_sentences (text : List Char) : List (List Char) :=
  (splitCore (collapseWs (pyStrip text)) []).filterMap processFragment

/-- Worker for `splitWs`, accumulating the current word reversed. -/
def splitWsAux : List Char → List Char → List (List Char)
  | [], acc => if acc.isEmpty then [] else [acc.reverse]
  | c :: rest, acc =>
    if isPySpace c then
      if acc.isEmpty then splitWsAux rest []
      else acc.reverse :: splitWsAux rest []
    else splitWsAux rest (c :: acc)

/-- Python `str.split()` with no argument: split on whitespace runs,
discarding empty tokens. -/
def splitWs (s : List Char) : List (List Char) := splitWsAux s []

/-- Python `' '.join(xs)`. -/
def joinSpace (xs : List (List Char)) : List Char :=
  (xs.intersperse [spaceChar]).flatten

/-- Fuel-driven worker for `pyReplace`; the fuel starts at the string
length, which suffices because every step consumes at least one input
character. -/
def replFuel (pat rep : List Char) : Nat → List Char → List Char
  | 0, s => s
  | _ + 1, [] => []
  | fuel + 1, c :: rest =>
    if pat.isPrefixOf (c :: rest) ∧ pat ≠ [] then
      rep ++ replFuel pat rep fuel (rest.drop (pat.length - 1))
    else
      c :: replFuel pat rep fuel rest

/-- Python `str.replace(pat, rep)` for a non-empty pattern (every entry of
the paraphrase table is non-empty): scan left to right, replacing
non-overlapping occurrences. -/
def pyReplace (s pat rep : List Char) : List Char :=
  replFuel pat rep s.length s

/-- Whether `pat` occurs as a contiguous substring of `s`. -/
def containsSub (pat : List Char) : List Char → Bool
  | [] => pat.isPrefixOf []
  | c :: rest => pat.isPrefixOf (c :: rest) || containsSub pat rest

/-- The fixed phrase-substitution table of `smart_paraphrase`
(src/app.py lines 208-231), in the Python dict's insertion order. -/
def replacements : List (String × String) := [
  ("reportedly", "allegedly"), ("infiltrated", "breached"), ("obtained", "secured"),
  ("suspended", "halted"), ("authorities", "officials"), ("considering", "contemplating"),
  ("individuals", "people"), ("conducted", "carried out"), ("mentioned", "stated"),
  ("operational", "functional"), ("approximately", "about"), ("subsequently", "later"),
  ("smashed", "hit"), ("crushing", "defeating"), ("sealed", "secured"),
  ("unassailable", "commanding"), ("deliveries", "balls"), ("holed out", "was caught"),
  ("removed cheaply", "dismissed for low scores"),
  ("server", "system"), ("technical advice", "technical assistance"),
  ("restart", "restore"),
  ("come to a standstill", "been suspended"),
  ("no response has been received", "they have not received a response"),
  ("have not been able to", "cannot"), ("As a result", "Consequently"),
  ("Even after", "Despite"),
  ("Rajdhani Unnayan Kartripakkha", "Rajuk"),
  ("Electronic Construction Permitting System", "ECPS"),
  ("Bangladesh Computer Council", "BCC"), ("West Indies", "Windies"),
  ("From the following day", "The next day"),
  ("all types of services", "all services"),
  ("are currently being provided", "are available"),
  ("linked to the incident", "connected to the breach")]

/-- `smart_paraphrase` (src/app.py lines 206-237): apply every table
entry in order as a whole-substring replacement. -/
def smart_paraphrase (s : List Char) : List Char :=
  replacements.foldl (fun acc pr => pyReplace acc pr.1.toList pr.2.toList) s

/-- Fuel-driven worker for `everyNth`; fuel starts at the list length,
enough because every step emits one element and drops at least it. -/
def everyNthFuel : Nat → Nat → List (List Char) → List (List Char)
  | 0, _, _ => []
  | _ + 1, _, [] => []
  | fuel + 1, step, x :: xs => x :: everyNthFuel fuel step (xs.drop (step - 1))

/-- The list comprehension `[l[i] for i in range(0, len(l), step)]` for
`step ≥ 1` (the only case the source reaches: `step = len // count` with
`len ≥ count ≥ 1`). -/
def everyNth (l : List (List Char)) (step : Nat) : List (List Char) :=
  everyNthFuel l.length step l

/-- The Python local `middle_sentences` of `create_basic_summary`
(src/app.py lines 253-255): the slice
`sentences[len(sentences)//3 : (2*len(sentences))//3]`. -/
def middleRange (sentences : List (List Char)) : List (List Char) :=
  (sentences.drop (sentences.length / 3)).take
    (2 * sentences.length / 3 - sentences.length / 3)

/-- The Python local `selected_middle` of `create_basic_summary`
(src/app.py lines 257-261): when the middle range can supply
`middle_count` sentences, sample it with stride
`len(middle_sentences) // middle_count` and keep the first
`middle_count`; otherwise keep the whole (under-supplying) range. -/
def middleSample (sentences : List (List Char)) (middle_count : Nat) :
    List (List Char) :=
  if middle_count ≤ (middleRange sentences).length then
    (everyNth (middleRange sentences)
      ((middleRange sentences).length / middle_count)).take middle_count
  else middleRange sentences

/-- The selection stage of `create_basic_summary` (src/app.py lines
243-268): return everything when the text has at most `target_sentences`
sentences; otherwise, for `target_sentences ≥ 3`, keep the first
sentence, the middle sample (the source guards it by
`target_sentences > 2`, always true here), and — when there is more than
one sentence — the last sentence; for smaller targets take a prefix. -/
def basic_select (sentences : List (List Char)) (target_sentences : Nat) :
    List (List Char) :=
  if sentences.length ≤ target_sentences then sentences
  else if 3 ≤ target_sentences then
    [sentences.getD 0 []] ++
      (if 2 < target_sentences then middleSample sentences (target_sentences - 2)
       else []) ++
      (if 1 < sentences.length then [sentences.getD (sentences.length - 1) []]
       else [])
  else sentences.take target_sentences

/-- The tail both summary paths share (src/app.py lines 270-277 and
318-325): paraphrase every selected sentence, join with single spaces,
and return the text with its sentence count and whitespace word count,
in the Python return order. -/
def assemble (selected : List (List Char)) : List Char × Nat × Nat :=
  (joinSpace (selected.map smart_paraphrase),
    (selected.map smart_paraphrase).length,
    (splitWs (joinSpace (selected.map smart_paraphrase))).length)

/-- `create_basic_summary` (src/app.py lines 239-277): segment, select
positionally, paraphrase, join with single spaces.  `target_words` is
accepted but never read, exactly as in the source. -/
def create_basic_summary (text : List Char) (target_sentences target_words : Nat) :
    List Char × Nat × Nat :=
  assemble (basic_select (clean_and_split_sentences text) target_sentences)

/-- Shape of the Hugging Face response as branched on by
`create_ai_summary` (src/app.py lines 296-307), with the HTTP layer
abstracted to an injected value: `apiError` is a response carrying an
`"error"` key (non-200 status, 503, or connection error inside
`query_huggingface_api`); `malformed` is a falsy / non-list / empty
response or a falsy first element; `ok` carries the first element's
`summary_text` value (possibly empty); `exn` is an exception raised
inside the surrounding `try` block. -/
inductive ApiResult where
  | apiError (msg : List Char)
  | malformed
  | ok (summary_text : List Char)
  | exn (msg : List Char)

/-- `create_ai_summary` (src/app.py lines 279-328) with the backend
response injected as `api`.  The `text`, targets and payload length
hints only shape the outgoing request, never the branching on the
response, so `text` and `target_words` are unused here. -/
def create_ai_summary (api : ApiResult) (text : List Char)
    (target_sentences target_words : Nat) : List Char × Nat × Nat :=
  match api with
  | .apiError msg => (("AI Error: ").toList ++ msg, 0, 0)
  | .malformed => (("AI Error: Invalid response from API").toList, 0, 0)
  | .exn msg => (("AI Error: ").toList ++ msg, 0, 0)
  | .ok summary_text =>
    if summary_text.isEmpty then (("AI Error: No summary generated").toList, 0, 0)
    else
      assemble
        (if target_sentences < (clean_and_split_sentences summary_text).length then
          (clean_and_split_sentences summary_text).take target_sentences
        else clean_and_split_sentences summary_text)

/-- The backend responses on which `create_ai_summary` produces an
`AI Error` result: every error, malformed, empty-summary or exception
outcome. -/
def isFailure : ApiResult → Bool
  | .apiError _ => true
  | .malformed => true
  | .exn _ => true
  | .ok summary_text => summary_text.isEmpty

/-- `create_smart_summary` (src/app.py lines 330-338): when `use_ai` is
set, try the AI path and keep its result unless the summary string
starts with `AI Error`; otherwise (and on AI failure) fall back to
`create_basic_summary`.  The `priority` parameter is accepted and, as in
the source, never read. -/
def create_smart_summary (api : ApiResult) (text : List Char)
    (target_sentences target_words : Nat) (priority : String) (use_ai : Bool) :
    List Char × Nat × Nat :=
  if use_ai then
    let result := create_ai_summary api text target_sentences target_words
    if ("AI Error").toList.isPrefixOf result.1 then
      create_basic_summary text target_sentences target_words
    else result
  else create_basic_summary text target_sentences target_words

/-- Round-half-to-even to an integer, the rounding Python's `round`
performs (floats modelled as exact rationals). -/
def roundHalfEven (q : ℚ) : ℤ :=
  if q - ⌊q⌋ < 1 / 2 then ⌊q⌋
  else if 1 / 2 < q - ⌊q⌋ then ⌊q⌋ + 1
  else if ⌊q⌋ % 2 = 0 then ⌊q⌋ else ⌊q⌋ + 1

/-- Python `round(q, 1)`. -/
def round1 (q : ℚ) : ℚ := (roundHalfEven (q * 10) : ℚ) / 10

/-- The compression metric of the statistics block (src/app.py lines
632-633): `round((1 - final_words/original_words) * 100, 1)` guarded to
`0` when the original word count is zero. -/
def compression (original_words final_words : Nat) : ℚ :=
  if 0 < original_words then
    round1 ((1 - (final_words : ℚ) / (original_words : ℚ)) * 100)
  else 0

/-- Whitespace word count of one sentence, Python `len(s.split())`. -/
def wordCount (s : List Char) : Nat := (splitWs s).length

/-- Total whitespace word count of a sentence list. -/
def wordTotal (l : List (List Char)) : Nat := (l.map wordCount).sum

/-- Accumulation loop of the specification's word-count-first policy:
keep taking candidates while the running total stays within the budget,
stop and discard the remainder as soon as the next sentence would
exceed it. -/
def specWfGo (budget : Nat) : Nat → List (List Char) → List (List Char)
  | _, [] => []
  | acc, s :: rest =>
    if acc + wordCount s ≤ budget then s :: specWfGo budget (acc + wordCount s) rest
    else []

/-- The word-count-first selection policy exactly as the specification
words it (spec §4.3): accumulate in candidate order within
`target_words + 10`, except that when the total over all candidates is
already within `target_words + 15` the trimming is skipped.  No
counterpart exists anywhere in src/app.py; this definition only serves
to exhibit the divergence claim C1 is about. -/
def specWordsFirstSelect (candidates : List (List Char)) (target_words : Nat) :
    List (List Char) :=
  if wordTotal candidates ≤ target_words + 15 then candidates
  else specWfGo (target_words + 10) 0 candidates

/-! ## Supporting lemmas -/

/-- A replacement whose pattern does not occur leaves the string
unchanged, for every amount of fuel. -/
theorem replFuel_eq_self (pat rep : List Char) :
    ∀ (fuel : Nat) (s : List Char), containsSub pat s = false →
      replFuel pat rep fuel s = s := by
  intro fuel
  induction fuel with
  | zero => intro s _; rfl
  | succ n ih =>
    intro s h
    cases s with
    | nil => rfl
    | cons c rest =>
      have hor : pat.isPrefixOf (c :: rest) = false ∧ containsSub pat rest = false := by
        unfold containsSub at h
        exact Bool.or_eq_false_iff.mp h
      unfold replFuel
      rw [if_neg fun hc => Bool.false_ne_true (hor.1 ▸ hc.1)]
      rw [ih rest hor.2]

/-- `str.replace` with an absent pattern is the identity. -/
theorem pyReplace_eq_self (s pat rep : List Char)
    (h : containsSub pat s = false) : pyReplace s pat rep = s :=
  replFuel_eq_self pat rep s.length s h

/-- A substitution pass whose patterns all miss the string is the
identity. -/
theorem foldl_pyReplace_eq_self :
    ∀ (rules : List (String × String)) (t : List Char),
      (∀ pr ∈ rules, containsSub pr.1.toList t = false) →
      rules.foldl (fun acc pr => pyReplace acc pr.1.toList pr.2.toList) t = t := by
  intro rules
  induction rules with
  | nil => intro t _; rfl
  | cons r rs ih =>
    intro t h
    simp only [List.foldl_cons]
    rw [pyReplace_eq_self t r.1.toList r.2.toList (h r (List.mem_cons_self r rs))]
    exact ih t fun pr hm => h pr (List.mem_cons_of_mem r hm)

/-- Appending a period puts terminal punctuation at the end. -/
theorem endsTerm_append_dot (x : List Char) : endsTerm (x ++ ['.']) = true := by
  unfold endsTerm
  rw [List.getLast?_concat]
  decide

/-- Every fragment the retention loop keeps ends in terminal
punctuation. -/
theorem processFragment_endsTerm {f s : List Char}
    (h : processFragment f = some s) : endsTerm s = true := by
  unfold processFragment at h
  split at h
  · by_cases he : endsTerm (pyStrip f) = true
    · rw [if_pos he] at h
      cases Option.some.inj h
      exact he
    · rw [if_neg he] at h
      cases Option.some.inj h
      exact endsTerm_append_dot _
  · exact absurd h (by simp)

/-- The middle sample never exceeds the requested middle count. -/
theorem middleSample_length_le (s : List (List Char)) (mc : Nat) :
    (middleSample s mc).length ≤ mc := by
  unfold middleSample
  by_cases h : mc ≤ (middleRange s).length
  · rw [if_pos h]
    exact List.length_take_le mc _
  · rw [if_neg h]
    omega

/-- The positional selection never returns more than the target number
of sentences. -/
theorem basic_select_length_le (s : List (List Char)) (ts : Nat) :
    (basic_select s ts).length ≤ ts := by
  unfold basic_select
  by_cases h1 : s.length ≤ ts
  · rw [if_pos h1]
    exact h1
  · rw [if_neg h1]
    by_cases h3 : 3 ≤ ts
    · rw [if_pos h3, if_pos (by omega : 2 < ts)]
      have hm := middleSample_length_le s (ts - 2)
      by_cases h1n : 1 < s.length
      · rw [if_pos h1n]
        simp only [List.length_append, List.length_cons, List.length_nil]
        omega
      · rw [if_neg h1n]
        simp only [List.length_append, List.length_cons, List.length_nil]
        omega
    · rw [if_neg h3]
      exact List.length_take_le ts s

/-- In the overflowing three-zone branch, the selection starts with the
first sentence, ends with the last one, and has at least two entries. -/
theorem basic_select_first_last (s : List (List Char)) (ts : Nat)
    (h3 : 3 ≤ ts) (hgt : ts < s.length) :
    (basic_select s ts).head? = some (s.getD 0 []) ∧
    (basic_select s ts).getLast? = some (s.getD (s.length - 1) []) ∧
    2 ≤ (basic_select s ts).length := by
  unfold basic_select
  rw [if_neg (by omega), if_pos h3, if_pos (by omega : 2 < ts),
    if_pos (by omega : 1 < s.length)]
  refine ⟨rfl, ?_, ?_⟩
  · rw [List.getLast?_concat]
  · simp only [List.length_append, List.length_cons, List.length_nil]
    omega

/-- The assembled result reports exactly the selected sentence count. -/
theorem assemble_count (sel : List (List Char)) : (assemble sel).2.1 = sel.length := by
  simp [assemble]

/-- An `AI Error: <msg>` string starts with `AI Error`, whatever the
message. -/
theorem aiError_prefix (msg : List Char) :
    ("AI Error").toList.isPrefixOf (("AI Error: ").toList ++ msg) = true := by
  rw [List.isPrefixOf_iff_prefix]
  refine ⟨(": ").toList ++ msg, ?_⟩
  rw [← List.append_assoc,
    (by decide : ("AI Error").toList ++ (": ").toList = ("AI Error: ").toList)]

/-! ## The claims -/

/-- Claim C1, counterexample.  With priority `words`, `target_words = 25`
and a three-sentence candidate list of 15 words each, the claimed
word-count-first policy would stop after two sentences (30 words, within
the budget `25 + 10`, total 45 not within `25 + 15`), but
`create_smart_summary` returns all three sentences, 45 words — beyond
`target_words + 15`. -/
theorem C1_counterexample :
    (create_smart_summary ApiResult.malformed
        ("Aa bb cc dd ee ff gg hh ii jj kk ll mm nn oo. Ba bb cc dd ee ff gg hh ii jj kk ll mm nn oo. Ca bb cc dd ee ff gg hh ii jj kk ll mm nn oo.").toList
        5 25 ("words") false).2.2 = 45 ∧
    ¬ ((create_smart_summary ApiResult.malformed
        ("Aa bb cc dd ee ff gg hh ii jj kk ll mm nn oo. Ba bb cc dd ee ff gg hh ii jj kk ll mm nn oo. Ca bb cc dd ee ff gg hh ii jj kk ll mm nn oo.").toList
        5 25 ("words") false).2.2 ≤ 25 + 15) ∧
    wordTotal (specWordsFirstSelect
      (clean_and_split_sentences
        ("Aa bb cc dd ee ff gg hh ii jj kk ll mm nn oo. Ba bb cc dd ee ff gg hh ii jj kk ll mm nn oo. Ca bb cc dd ee ff gg hh ii jj kk ll mm nn oo.").toList)
      25) = 30 :=
  ⟨by decide, by decide, by decide⟩

/-- Claim C1, amended.  `create_smart_summary` implements no word-count
policy at all: the `priority` argument is never read (the result is the
same for every priority value), and on the fallback (non-AI) path
`target_words` and the backend response are never read either — selection
is by sentence count only. -/
theorem C1_amended_priority_ignored :
    (∀ (api : ApiResult) (text : List Char) (ts tw : Nat) (p q : String) (b : Bool),
      create_smart_summary api text ts tw p b =
        create_smart_summary api text ts tw q b) ∧
    (∀ (api api2 : ApiResult) (text : List Char) (ts tw tw2 : Nat) (p q : String),
      create_smart_summary api text ts tw p false =
        create_smart_summary api2 text ts tw2 q false) :=
  ⟨fun _ _ _ _ _ _ _ => rfl, fun _ _ _ _ _ _ _ _ => rfl⟩

/-- Claim C2.  On a text whose segmentation yields zero sentences (here:
a 70-character text without internal sentence boundaries that ends in a
double period), `create_basic_summary` returns the empty summary with
zero counts — no descriptive failure of any kind, contradicting the
spec's NoSentencesFound policy. -/
theorem C2_empty_segmentation_silent :
    clean_and_split_sentences
        ("this text has no capital letters after its periods and it ends badly..").toList = [] ∧
    create_basic_summary
        ("this text has no capital letters after its periods and it ends badly..").toList
        5 75 = ([], 0, 0) :=
  ⟨by decide, by decide⟩

/-- Claim C3.  For `target_sentences ≥ 3` and more segmented sentences
than the target, the positional three-zone selection of
`create_basic_summary` starts with the first original sentence and ends
with the last one (and has at least two entries, so the first strictly
precedes the last). -/
theorem C3_positional_coverage (text : List Char) (ts : Nat) (h3 : 3 ≤ ts)
    (hgt : ts < (clean_and_split_sentences text).length) :
    (basic_select (clean_and_split_sentences text) ts).head? =
      some ((clean_and_split_sentences text).getD 0 []) ∧
    (basic_select (clean_and_split_sentences text) ts).getLast? =
      some ((clean_and_split_sentences text).getD
        ((clean_and_split_sentences text).length - 1) []) ∧
    2 ≤ (basic_select (clean_and_split_sentences text) ts).length :=
  basic_select_first_last _ ts h3 hgt

/-- Claim C3, witness at a four-sentence text with target 3. -/
theorem C3_witness :
    3 < (clean_and_split_sentences
      ("Aaaa bbbb one. Bbbb cccc two. Cccc dddd three. Dddd eeee four.").toList).length ∧
    ((basic_select (clean_and_split_sentences
        ("Aaaa bbbb one. Bbbb cccc two. Cccc dddd three. Dddd eeee four.").toList) 3).head? =
      some ((clean_and_split_sentences
        ("Aaaa bbbb one. Bbbb cccc two. Cccc dddd three. Dddd eeee four.").toList).getD 0 []) ∧
    (basic_select (clean_and_split_sentences
        ("Aaaa bbbb one. Bbbb cccc two. Cccc dddd three. Dddd eeee four.").toList) 3).getLast? =
      some ((clean_and_split_sentences
        ("Aaaa bbbb one. Bbbb cccc two. Cccc dddd three. Dddd eeee four.").toList).getD
        ((clean_and_split_sentences
          ("Aaaa bbbb one. Bbbb cccc two. Cccc dddd three. Dddd eeee four.").toList).length - 1) []) ∧
    2 ≤ (basic_select (clean_and_split_sentences
        ("Aaaa bbbb one. Bbbb cccc two. Cccc dddd three. Dddd eeee four.").toList) 3).length) :=
  ⟨by decide,
    C3_positional_coverage
      ("Aaaa bbbb one. Bbbb cccc two. Cccc dddd three. Dddd eeee four.").toList
      3 (by decide) (by decide)⟩

/-- Claim C4.  The compression metric is 0 when the original word count
is 0, and `round((1 - 25/100) * 100, 1) = 75.0` at 100 original and 25
summary words. -/
theorem C4_compression_formula :
    (∀ s : Nat, compression 0 s = 0) ∧ compression 100 25 = 75 :=
  ⟨fun s => by simp [compression], by
    simp only [compression, round1, roundHalfEven]
    norm_num⟩

/-- Claim C5.  Segmentation collapses whitespace runs, splits at
terminal punctuation followed by whitespace and a capital letter without
consuming the punctuation, and discards fragments shorter than 10
characters or ending in a double period; the spec's example input yields
exactly one retained sentence. -/
theorem C5_segmentation_filter :
    clean_and_split_sentences
        ("Hi. This is a proper sentence that is long enough.").toList =
      [("This is a proper sentence that is long enough.").toList] ∧
    clean_and_split_sentences
        ("First sentence here" ++ "\n\n" ++ "ends  now. Second sentence also long enough.").toList =
      [("First sentence here ends now.").toList,
        ("Second sentence also long enough.").toList] ∧
    clean_and_split_sentences
        ("This fragment here ends with double dots..").toList = [] :=
  ⟨by decide, by decide, by decide⟩

/-- Claim C6.  The lexical smoother is idempotent on every input whose
once-smoothed form contains no trigger substring of any table entry (the
precise rendering of "no overlapping triggers, except where one
replacement's output contains another rule's trigger": e.g. for
"come to a standstill" the output "been suspended" contains the trigger
"suspended" and the hypothesis correctly fails). -/
theorem C6_smoothing_idempotent (s : List Char)
    (h : ∀ pr ∈ replacements, containsSub pr.1.toList (smart_paraphrase s) = false) :
    smart_paraphrase (smart_paraphrase s) = smart_paraphrase s :=
  foldl_pyReplace_eq_self replacements (smart_paraphrase s) h

/-- Claim C6, witness at a sentence that triggers one rewrite whose
output triggers nothing further. -/
theorem C6_witness :
    (∀ pr ∈ replacements,
      containsSub pr.1.toList
        (smart_paraphrase ("He obtained the files.").toList) = false) ∧
    smart_paraphrase (smart_paraphrase ("He obtained the files.").toList) =
      smart_paraphrase ("He obtained the files.").toList :=
  ⟨by decide, C6_smoothing_idempotent (("He obtained the files.").toList) (by decide)⟩

/-- Claim C7.  Every failing backend outcome — error response, malformed
response, empty summary, or exception — makes `create_smart_summary`
fall back to `create_basic_summary` and return its result. -/
theorem C7_backend_failure_fallback (api : ApiResult) (text : List Char)
    (ts tw : Nat) (priority : String) (h : isFailure api = true) :
    create_smart_summary api text ts tw priority true =
      create_basic_summary text ts tw := by
  cases api with
  | apiError msg =>
    simp [create_smart_summary, create_ai_summary, aiError_prefix msg]
  | malformed =>
    simp [create_smart_summary, create_ai_summary,
      (by decide : ("AI Error").toList.isPrefixOf
        (("AI Error: Invalid response from API").toList) = true)]
  | exn msg =>
    simp [create_smart_summary, create_ai_summary, aiError_prefix msg]
  | ok summary_text =>
    have he : summary_text.isEmpty = true := h
    simp [create_smart_summary, create_ai_summary, he,
      (by decide : ("AI Error").toList.isPrefixOf
        (("AI Error: No summary generated").toList) = true)]

/-- Claim C7, witness at a connection-error backend response. -/
theorem C7_witness :
    isFailure (ApiResult.apiError ("Connection error: timeout").toList) = true ∧
    create_smart_summary (ApiResult.apiError ("Connection error: timeout").toList)
        ("Hi. This is a proper sentence that is long enough.").toList
        3 45 ("sentences") true =
      create_basic_summary
        ("Hi. This is a proper sentence that is long enough.").toList 3 45 :=
  ⟨by decide,
    C7_backend_failure_fallback _ _ 3 45 ("sentences") (by decide)⟩

/-- Claim C8.  On the AI success path the returned sentence count is
exactly the target when more sentences qualify, and exactly the number
of qualifying sentences otherwise. -/
theorem C8_ai_selection_length (summary_text text : List Char) (ts tw : Nat)
    (h : summary_text ≠ []) :
    (ts < (clean_and_split_sentences summary_text).length →
      (create_ai_summary (ApiResult.ok summary_text) text ts tw).2.1 = ts) ∧
    ((clean_and_split_sentences summary_text).length ≤ ts →
      (create_ai_summary (ApiResult.ok summary_text) text ts tw).2.1 =
        (clean_and_split_sentences summary_text).length) := by
  have hne : summary_text.isEmpty = false := by
    cases summary_text with
    | nil => exact absurd rfl h
    | cons c r => rfl
  constructor
  · intro hlt
    simp only [create_ai_summary]
    rw [if_neg (by simp [hne]), if_pos hlt, assemble_count]
    exact List.length_take_of_le (Nat.le_of_lt hlt)
  · intro hle
    simp only [create_ai_summary]
    rw [if_neg (by simp [hne]), if_neg (by omega), assemble_count]

/-- Claim C8, witness: a two-sentence backend summary trimmed to a
target of one. -/
theorem C8_witness :
    ("Aaaa bbbb one. Bbbb cccc two.").toList ≠ [] ∧
    1 < (clean_and_split_sentences ("Aaaa bbbb one. Bbbb cccc two.").toList).length ∧
    (create_ai_summary (ApiResult.ok ("Aaaa bbbb one. Bbbb cccc two.").toList)
      ("ignored").toList 1 45).2.1 = 1 :=
  ⟨by decide, by decide,
    (C8_ai_selection_length (("Aaaa bbbb one. Bbbb cccc two.").toList)
      (("ignored").toList) 1 45 (by decide)).1 (by decide)⟩

/-- Claim C9.  Every sentence retained by segmentation ends with one of
the terminal punctuation marks, a period being appended when one is
missing. -/
theorem C9_terminal_punctuation (text s : List Char)
    (h : s ∈ clean_and_split_sentences text) : endsTerm s = true := by
  unfold clean_and_split_sentences at h
  rw [List.mem_filterMap] at h
  obtain ⟨f, -, hf⟩ := h
  exact processFragment_endsTerm hf

/-- Claim C9, witness at an input lacking final punctuation, whose one
retained sentence gains an appended period. -/
theorem C9_witness :
    endsTerm ("No terminal punctuation here at all.").toList = true :=
  C9_terminal_punctuation ("No terminal punctuation here at all").toList
    ("No terminal punctuation here at all.").toList (by decide)

/-- Claim C10.  `create_basic_summary` never returns more than
`target_sentences` sentences, and the middle range can under-supply:
with six segmented sentences and target 5 the output has only 4. -/
theorem C10_length_bound :
    (∀ (text : List Char) (ts tw : Nat), 1 ≤ ts →
      (create_basic_summary text ts tw).2.1 ≤ ts) ∧
    ((create_basic_summary
        ("Aaaa bbbb one. Bbbb cccc two. Cccc dddd three. Dddd eeee four. Eeee ffff five. Ffff gggg six.").toList
        5 75).2.1 = 4 ∧
      5 < (clean_and_split_sentences
        ("Aaaa bbbb one. Bbbb cccc two. Cccc dddd three. Dddd eeee four. Eeee ffff five. Ffff gggg six.").toList).length) := by
  constructor
  · intro text ts tw _
    have hb := basic_select_length_le (clean_and_split_sentences text) ts
    simpa [create_basic_summary, assemble_count] using hb
  · exact ⟨by decide, by decide⟩

/-- Claim C10, witness discharging the `1 ≤ target_sentences`
hypothesis at a concrete input. -/
theorem C10_witness :
    1 ≤ 3 ∧
    (create_basic_summary
      ("Hi. This is a proper sentence that is long enough.").toList 3 75).2.1 ≤ 3 :=
  ⟨by decide,
    C10_length_bound.1
      (("Hi. This is a proper sentence that is long enough.").toList) 3 75 (by decide)⟩

end TextSummarizer
